import Mathlib

/-!
# Verification of the Enphase Envoy / Yoctopuce display program

Shallow embedding of `src/main.py` (the only source file of the repository):

* `format_watts`       — the watt formatter (lines 128-132);
* `get_solar_stats`    — the telemetry extraction (lines 102-125);
* `get_secure_gateway_session` — the session establishment (lines 23-99);
* `displayLoop`        — the polling/render loop of `main` (lines 170-180).

Python numbers (JSON floats) are modelled as exact rationals: `round` is
round-half-to-even (Python 3 banker's rounding) on the exact value, and the
`"%.1f"` rendering is correct rounding of the exact quotient to the nearest
tenth, ties to even.  The binary `float` intermediate of CPython can break a
third-decimal tie the other way; no claim below depends on a tie direction,
and every concrete input used is tie-free, so its double rounds to the same
integer/tenth as the exact decimal value.
-/

/-- The character standing for decimal digit `d` (`0 ≤ d ≤ 9`), as `"%d"` prints it. -/
def digitChar (d : ℕ) : Char := Char.ofNat (48 + d)

/-- Fuel-based helper for `natToDigits` (structural recursion on the fuel so
that the kernel can evaluate it on concrete inputs); it prepends the digits of
`n` to the accumulator, least significant digit pushed first. -/
def natToDigitsAux : ℕ → ℕ → List Char → List Char
  | 0, _, acc => acc
  | fuel + 1, n, acc =>
    if n < 10 then digitChar n :: acc
    else natToDigitsAux fuel (n / 10) (digitChar (n % 10) :: acc)

/-- Base-10 digits of a natural number, most significant first: the exact
character sequence that Python's `"%d"` produces for a non-negative value. -/
def natToDigits (n : ℕ) : List Char := natToDigitsAux (n + 1) n []

/-- Decimal rendering of a natural number. -/
def natToStr (n : ℕ) : String := String.mk (natToDigits n)

/-- Decimal rendering of an integer, as Python's `"%d"` prints it
(`-` sign for negative values, no sign otherwise). -/
def intToStr (n : ℤ) : String :=
  (if n < 0 then "-" else "") ++ natToStr n.natAbs

/-- Reads back the value of a digit string (left fold, most significant first). -/
def digitsToNat (l : List Char) : ℕ :=
  l.foldl (fun a c => 10 * a + (c.toNat - 48)) 0

/-- Python 3 `round` to an integer: round half to even (banker's rounding) on
the exact rational value, computed from numerator and denominator.  With
`f = ⌊q⌋` (floor division of `num` by `den`) and `r` the non-negative
remainder, the value sits `r/den` above `f`; comparing `2*r` with `den`
decides the direction, a tie going to the even neighbour. -/
def pyRound (q : ℚ) : ℤ :=
  let d : ℤ := (q.den : ℤ)
  let f : ℤ := q.num.fdiv d
  let r : ℤ := q.num.fmod d
  if 2 * r < d then f
  else if d < 2 * r then f + 1
  else if f % 2 = 0 then f else f + 1

/-- The signed count of kilowatt tenths that `"%.1f" % (watts / 1000.0)`
displays: the nearest integer to `watts / 100` (written `mkRat watts 100`),
ties to even (see the module comment for the float abstraction). -/
def tenths (watts : ℤ) : ℤ := pyRound (mkRat watts 100)

/-- `"%.1f" % (watts / 1000.0)` followed by `" W"`, for the already-rounded
integer watt value `watts` (source line 132): the exact quotient
`watts / 1000` rendered with one fractional digit. -/
def fmtKW (watts : ℤ) : String :=
  (if tenths watts < 0 then "-" else "")
    ++ natToStr ((tenths watts).natAbs / 10) ++ "."
    ++ natToStr ((tenths watts).natAbs % 10) ++ " W"

/-- `format_watts` (source lines 128-132):

    watts = round(watts)
    if abs(watts) < 1000:
        return "%d W" % watts
    return "%.1f W" % (watts / 1000.0)
-/
def format_watts (watts : ℚ) : String :=
  let w := pyRound watts
  if w.natAbs < 1000 then intToStr w ++ " W"
  else fmtKW w

/-! ### Telemetry extraction (`get_solar_stats`, source lines 102-125)

A JSON entry of the `production` / `consumption` lists is modelled with its
three relevant keys, each optional (a missing key makes the corresponding
`device['...']` lookup raise `KeyError`, modelled as `Except.error` carrying
the key name). -/

structure DeviceEntry where
  type : Option String
  measurementType : Option String
  wNow : Option ℚ
deriving DecidableEq

/-- The parsed `/production.json` document: `production_statistics['production']`
and `production_statistics['consumption']`. -/
structure ProductionDoc where
  production : List DeviceEntry
  consumption : List DeviceEntry
deriving DecidableEq

/-- `device[key]`: the value if the key is present, `KeyError key` otherwise. -/
def getKey {α : Type} (field : Option α) (key : String) : Except String α :=
  match field with
  | some v => .ok v
  | none => .error key

/-- The `production` loop of `get_solar_stats` (lines 113-117): start from 0,
take `wNow` of the first entry whose `type` equals `"inverters"` and break. -/
def scanProduction : List DeviceEntry → Except String ℚ
  | [] => .ok 0
  | d :: rest => do
    let t ← getKey d.type "type"
    if t = "inverters" then getKey d.wNow "wNow"
    else scanProduction rest

/-- The `consumption` loop of `get_solar_stats` (lines 118-124): start from 0,
take `wNow` of the first entry whose `type` equals `"eim"` and whose
`measurementType` is `net-consumption` or `total-consumption`, and break.
`measurementType` is only looked up when the `type` test passed (Python's
short-circuit `and`). -/
def scanConsumption : List DeviceEntry → Except String ℚ
  | [] => .ok 0
  | d :: rest => do
    let t ← getKey d.type "type"
    if t = "eim" then
      let m ← getKey d.measurementType "measurementType"
      if m = "net-consumption" ∨ m = "total-consumption" then getKey d.wNow "wNow"
      else scanConsumption rest
    else scanConsumption rest

/-- `get_solar_stats` on an already-fetched document: the production loop runs
first, then the consumption loop (so a `KeyError` in the former masks the
latter), and the pair is returned. -/
def get_solar_stats (doc : ProductionDoc) : Except String (ℚ × ℚ) := do
  let production ← scanProduction doc.production
  let consumption ← scanConsumption doc.consumption
  return (production, consumption)

/-- Spec-side description (claim C1): the `wNow` of the first entry of the
`production` list whose `type` is `"inverters"`, defaulting to 0. -/
def firstInvertersWNow (l : List DeviceEntry) : ℚ :=
  match l.find? (fun d => d.type = some "inverters") with
  | some d => d.wNow.getD 0
  | none => 0

/-- Spec-side description (claim C1): the `wNow` of the first entry of the
`consumption` list whose `type` is `"eim"` and whose `measurementType` is
`net-consumption` or `total-consumption`, defaulting to 0. -/
def firstEimWNow (l : List DeviceEntry) : ℚ :=
  match l.find? (fun d => d.type = some "eim"
      ∧ (d.measurementType = some "net-consumption"
         ∨ d.measurementType = some "total-consumption")) with
  | some d => d.wNow.getD 0
  | none => 0

/-- A production entry the scan steps over without matching and without
raising: it has a `type` key whose value is not `"inverters"`. -/
def prodSkips (e : DeviceEntry) : Prop :=
  ∃ t, e.type = some t ∧ t ≠ "inverters"

/-- A consumption entry the scan steps over without matching and without
raising: either its `type` key is present and not `"eim"`, or it is `"eim"`
and its `measurementType` key is present but not a qualifying value. -/
def consSkips (e : DeviceEntry) : Prop :=
  (∃ t, e.type = some t ∧ t ≠ "eim")
  ∨ (e.type = some "eim" ∧ ∃ m, e.measurementType = some m
      ∧ m ≠ "net-consumption" ∧ m ≠ "total-consumption")

/-! ### Session establishment (`get_secure_gateway_session`, lines 23-99)

The credential record and the external collaborators (cloud authentication
service, filesystem, gateway) are modelled explicitly; the function returns
its result together with the final in-memory record and the sequence of
external effects it performed, in order. -/

/-- The flat credential record of `config.json`.  A field is `none` when the
key is missing or holds JSON `null`; note that Python truthiness also treats
an empty string as absent (`truthy`). -/
structure Credentials where
  gateway_host : Option String
  gateway_serial_number : Option String
  enphase_username : Option String
  enphase_password : Option String
  gateway_token : Option String
deriving DecidableEq

/-- Python truthiness of `credentials.get(key)` for a string field: present
and non-empty. -/
def truthy : Option String → Bool
  | some s => !s.isEmpty
  | none => false

/-- The external collaborators: cloud token introspection and authentication,
token issuance, certificate-file existence, and gateway login. -/
structure Env where
  check_token_valid : String → Option String → Bool
  authenticate_ok : String → String → Bool
  token_for_commissioned : String → String
  token_for_uncommissioned : String
  cert_exists : Bool
  gateway_login_ok : Option String → String → Bool

/-- One observable external effect of `get_secure_gateway_session`, in
program order. -/
inductive Event where
  /-- `Authentication.check_token_valid(token, serial)` (line 47). -/
  | checkToken (token : String) (serial : Option String)
  /-- `authentication.authenticate(username, password)` (line 61). -/
  | authenticate (username password : String)
  /-- `authentication.get_token_for_commissioned_gateway(serial)` (line 69). -/
  | issueCommissioned (serial : String)
  /-- `authentication.get_token_for_uncommissioned_gateway()` (line 74). -/
  | issueUncommissioned
  /-- `json.dump(credentials, ...)` rewriting `config.json` (lines 77-78). -/
  | writeConfig (record : Credentials)
  /-- `Gateway.trust_gateway(host, "gateway.cer")` writing the certificate
  file (line 88). -/
  | trustGateway (host : Option String)
  /-- `gateway.login(token)` (line 94). -/
  | login (host : Option String) (token : String)
deriving DecidableEq

/-- Was the event a call to the cloud authentication service
(login or token issuance)? -/
def Event.isCloudCall : Event → Bool
  | .authenticate _ _ => true
  | .issueCommissioned _ => true
  | .issueUncommissioned => true
  | _ => false

/-- Was the event a token-issuance call? -/
def Event.isIssue : Event → Bool
  | .issueCommissioned _ => true
  | .issueUncommissioned => true
  | _ => false

/-- Was the event a rewrite of the credential file? -/
def Event.isCredWrite : Event → Bool
  | .writeConfig _ => true
  | _ => false

/-- Was the event a file write (credential file or certificate file)? -/
def Event.isFileWrite : Event → Bool
  | .writeConfig _ => true
  | .trustGateway _ => true
  | _ => false

/-- The authenticated session returned on success: the gateway client bound
to the (possibly default) host, logged in with the token. -/
structure GatewaySession where
  host : Option String
  token : String
deriving DecidableEq

deriving instance DecidableEq for Except

/-- Result of a session establishment: the returned value or the raised
`ValueError` message, the final in-memory credential record, and the ordered
external effects. -/
structure SessionResult where
  result : Except String GatewaySession
  creds : Credentials
  trace : List Event
deriving DecidableEq

/-- The error message of lines 81 and 96. -/
def badTokenMsg : String :=
  "Unable to login to the gateway (bad, expired or missing token in credentials.json)."

/-- The error message of line 64. -/
def entrezMsg : String :=
  "Failed to login to Enphase® Authentication server (\"Entrez\")"

/-- The introspection calls of lines 46-49: `check_token_valid` is reached
only when `credentials.get('gateway_token')` is truthy (Python's
short-circuit `and`). -/
def checkEventsOf (credentials : Credentials) : List Event :=
  match credentials.gateway_token with
  | some t => if t.isEmpty then [] else [.checkToken t credentials.gateway_serial_number]
  | none => []

/-- The condition of lines 46-49: the cached token is truthy and the
introspection call reports it valid. -/
def cachedTokenUsable (env : Env) (credentials : Credentials) : Bool :=
  match credentials.gateway_token with
  | some t => !t.isEmpty && env.check_token_valid t credentials.gateway_serial_number
  | none => false

/-- The token issued at lines 66-74: serial-scoped when a serial number is
configured (truthy), the uncommissioned-gateway token otherwise. -/
def issuedTokenOf (env : Env) (c : Credentials) : String :=
  if truthy c.gateway_serial_number then
    env.token_for_commissioned (c.gateway_serial_number.getD "")
  else env.token_for_uncommissioned

/-- The issuance call made at lines 66-74. -/
def issueEventOf (c : Credentials) : Event :=
  if truthy c.gateway_serial_number then
    .issueCommissioned (c.gateway_serial_number.getD "")
  else .issueUncommissioned

/-- Lines 83-99: host lookup, one-time certificate download, gateway client
construction and login, shared by the cached-token and fresh-token paths. -/
def finishSession (env : Env) (c : Credentials) (tr : List Event) : SessionResult :=
  let host := c.gateway_host
  let tok := c.gateway_token.getD ""
  let tr' := tr ++ (if env.cert_exists then [] else [Event.trustGateway host])
      ++ [Event.login host tok]
  if env.gateway_login_ok host tok then ⟨.ok ⟨host, tok⟩, c, tr'⟩
  else ⟨.error badTokenMsg, c, tr'⟩

/-- `get_secure_gateway_session` (lines 23-99).  Lines 46-51 validate a cached
token (the introspection call is made only when the cached token is truthy,
by Python's short-circuit `and`) and clear it if unusable; lines 54-81 obtain
a fresh token through the cloud service and rewrite `config.json`, or raise
when no username/password is available; lines 83-99 are `finishSession`. -/
def get_secure_gateway_session (env : Env) (credentials : Credentials) : SessionResult :=
  let checkEvents : List Event := checkEventsOf credentials
  let c₁ : Credentials :=
    if cachedTokenUsable env credentials then credentials
    else { credentials with gateway_token := none }
  if truthy c₁.gateway_token then
    finishSession env c₁ checkEvents
  else if truthy c₁.enphase_username && truthy c₁.enphase_password then
    let u := c₁.enphase_username.getD ""
    let p := c₁.enphase_password.getD ""
    if env.authenticate_ok u p then
      let c₂ : Credentials := { c₁ with gateway_token := some (issuedTokenOf env c₁) }
      finishSession env c₂
        (checkEvents ++ [.authenticate u p, issueEventOf c₁, .writeConfig c₂])
    else ⟨.error entrezMsg, c₁, checkEvents ++ [.authenticate u p]⟩
  else ⟨.error badTokenMsg, c₁, checkEvents⟩

/-! ### Display loop (`main`, lines 170-180) -/

/-- The environment of the polling loop: the display's online status before
each iteration, the telemetry values each fetch returns, and the display
dimensions. -/
structure LoopEnv where
  isOnline : ℕ → Bool
  production : ℕ → ℚ
  consumption : ℕ → ℚ
  width : ℚ
  height : ℚ

/-- One observable action of a loop iteration, in program order. -/
inductive DispEvent where
  /-- `get_solar_stats(gateway)` (line 171). -/
  | fetch (production consumption : ℚ)
  /-- `l0.clear()` (line 174). -/
  | clear
  /-- `l0.selectFont(f)` (lines 175 and 177). -/
  | selectFont (f : String)
  /-- `l0.drawText(x, y, alignment, text)` (lines 176 and 178). -/
  | drawText (x y : ℚ) (align : String) (text : String)
  /-- `YAPI.Sleep(ms)` (line 180). -/
  | sleep (ms : ℕ)
deriving DecidableEq

/-- The body of iteration `i` (lines 171-180), as its ordered action list. -/
def loopBody (env : LoopEnv) (i : ℕ) : List DispEvent :=
  let production := env.production i
  let consumption := env.consumption i
  let avail := production - consumption
  [.fetch production consumption,
   .clear,
   .selectFont "Large.yfm",
   .drawText (env.width / 2) (env.height / 3) "CENTER" (format_watts avail),
   .selectFont "Medium.yfm",
   .drawText (env.width / 2) (env.height * 2 / 3) "CENTER"
     ("(" ++ format_watts production ++ ")"),
   .sleep 5000]

/-- `while disp.isOnline(): ...` (line 170), observed for `fuel` condition
checks starting at iteration index `i`: the online test guards every
iteration, and a `false` test ends the run for good. -/
def displayLoop (env : LoopEnv) : ℕ → ℕ → List (List DispEvent)
  | 0, _ => []
  | fuel + 1, i =>
    if env.isOnline i then loopBody env i :: displayLoop env fuel (i + 1) else []

/-! ### Concrete fixtures used by the witnesses -/

/-- An environment in which every external call fails or denies. -/
def envDeny : Env :=
  ⟨fun _ _ => false, fun _ _ => false, fun s => "tok-" ++ s, "tok", false,
   fun _ _ => false⟩

/-- An environment in which every external call succeeds. -/
def envAllow : Env :=
  ⟨fun _ _ => true, fun _ _ => true, fun s => "tok-" ++ s, "tok", true,
   fun _ _ => true⟩

/-- Credentials holding only an (expired) cached token. -/
def credsExpired : Credentials := ⟨some "host", some "sn", none, none, some "expired"⟩

/-- Credentials holding a cached token plus a username and password. -/
def credsValid : Credentials := ⟨none, some "sn", some "user", some "pw", some "cached"⟩

/-- Credentials with no cached token but a username and password. -/
def credsFresh : Credentials := ⟨none, some "sn", some "user", some "pw", none⟩

/-! ### Decimal-digit rendering lemmas -/

theorem natToDigitsAux_append (fuel : ℕ) :
    ∀ n acc, natToDigitsAux fuel n acc = natToDigitsAux fuel n [] ++ acc := by
  induction fuel with
  | zero => intro n acc; simp [natToDigitsAux]
  | succ fuel ih =>
    intro n acc
    by_cases h : n < 10
    · simp [natToDigitsAux, h]
    · simp only [natToDigitsAux, if_neg h]
      rw [ih (n / 10) (digitChar (n % 10) :: acc), ih (n / 10) [digitChar (n % 10)]]
      simp

theorem natToDigitsAux_fuel :
    ∀ f₁ f₂ n acc, n < f₁ → n < f₂ →
      natToDigitsAux f₁ n acc = natToDigitsAux f₂ n acc := by
  intro f₁
  induction f₁ with
  | zero => intro f₂ n acc h₁ _; omega
  | succ f₁ ih =>
    intro f₂ n acc h₁ h₂
    cases f₂ with
    | zero => omega
    | succ f₂ =>
      by_cases h : n < 10
      · simp [natToDigitsAux, h]
      · simp only [natToDigitsAux, if_neg h]
        have hdiv : n / 10 < n := Nat.div_lt_self (by omega) (by omega)
        exact ih f₂ (n / 10) _ (by omega) (by omega)

theorem natToDigits_of_lt {n : ℕ} (h : n < 10) : natToDigits n = [digitChar n] := by
  simp [natToDigits, natToDigitsAux, h]

theorem natToDigits_of_ge {n : ℕ} (h : 10 ≤ n) :
    natToDigits n = natToDigits (n / 10) ++ [digitChar (n % 10)] := by
  have hdiv : n / 10 < n := Nat.div_lt_self (by omega) (by omega)
  show natToDigitsAux (n + 1) n [] = _
  simp only [natToDigitsAux, if_neg (by omega : ¬ n < 10)]
  rw [natToDigitsAux_fuel n (n / 10 + 1) (n / 10) _ (by omega) (by omega),
    natToDigitsAux_append]
  rfl

theorem digitChar_isDigit {d : ℕ} (h : d < 10) : (digitChar d).isDigit = true := by
  interval_cases d <;> decide

theorem digitChar_ne_dot {d : ℕ} (h : d < 10) : digitChar d ≠ '.' := by
  interval_cases d <;> decide

theorem digitChar_toNat {d : ℕ} (h : d < 10) : (digitChar d).toNat = 48 + d := by
  interval_cases d <;> decide

theorem mem_natToDigitsAux :
    ∀ fuel n acc c, c ∈ natToDigitsAux fuel n acc →
      c ∈ acc ∨ ∃ d, d < 10 ∧ c = digitChar d := by
  intro fuel
  induction fuel with
  | zero => intro n acc c h; exact Or.inl h
  | succ fuel ih =>
    intro n acc c h
    by_cases hn : n < 10
    · simp only [natToDigitsAux, if_pos hn, List.mem_cons] at h
      rcases h with h | h
      · exact Or.inr ⟨n, hn, h⟩
      · exact Or.inl h
    · simp only [natToDigitsAux, if_neg hn] at h
      rcases ih (n / 10) _ c h with h' | h'
      · rcases List.mem_cons.mp h' with h'' | h''
        · exact Or.inr ⟨n % 10, Nat.mod_lt _ (by omega), h''⟩
        · exact Or.inl h''
      · exact Or.inr h'

theorem mem_natToDigits {n : ℕ} {c : Char} (h : c ∈ natToDigits n) :
    ∃ d, d < 10 ∧ c = digitChar d := by
  rcases mem_natToDigitsAux (n + 1) n [] c h with h' | h'
  · simp at h'
  · exact h'

theorem natToDigits_isDigit {n : ℕ} {c : Char} (h : c ∈ natToDigits n) :
    c.isDigit = true := by
  obtain ⟨d, hd, rfl⟩ := mem_natToDigits h
  exact digitChar_isDigit hd

theorem dot_not_mem_natToDigits (n : ℕ) : '.' ∉ natToDigits n := by
  intro h
  obtain ⟨d, hd, hc⟩ := mem_natToDigits h
  exact digitChar_ne_dot hd hc.symm

theorem digitsToNat_natToDigits : ∀ n : ℕ, digitsToNat (natToDigits n) = n := by
  intro n
  induction n using Nat.strong_induction_on with
  | _ n ih =>
    by_cases h : n < 10
    · rw [natToDigits_of_lt h]
      simp [digitsToNat, digitChar_toNat h]
    · have hdiv : n / 10 < n := Nat.div_lt_self (by omega) (by omega)
      rw [natToDigits_of_ge (by omega)]
      simp only [digitsToNat, List.foldl_append] at *
      rw [ih (n / 10) hdiv]
      simp only [List.foldl]
      rw [digitChar_toNat (Nat.mod_lt _ (by omega))]
      omega

theorem length_natToDigits_of_lt {n : ℕ} (h : n < 10) :
    (natToDigits n).length = 1 := by
  rw [natToDigits_of_lt h]
  rfl

/-! ### Rounding accuracy -/

theorem pyRound_sub_le_half (q : ℚ) : |(pyRound q : ℚ) - q| ≤ 1 / 2 := by
  have hd : (0 : ℤ) < (q.den : ℤ) := by exact_mod_cast q.den_pos
  have hr0 : 0 ≤ q.num.fmod (q.den : ℤ) := by
    rw [Int.fmod_eq_emod _ (le_of_lt hd)]
    exact Int.emod_nonneg _ (ne_of_gt hd)
  have hrd : q.num.fmod (q.den : ℤ) < (q.den : ℤ) := Int.fmod_lt_of_pos _ hd
  have heq : q.num.fmod (q.den : ℤ) + (q.den : ℤ) * q.num.fdiv (q.den : ℤ) = q.num :=
    Int.fmod_add_fdiv _ _
  have hdq : (0 : ℚ) < ((q.den : ℤ) : ℚ) := by exact_mod_cast hd
  have hden0 : ((q.den : ℤ) : ℚ) ≠ 0 := ne_of_gt hdq
  have hq : (q.num : ℚ) = q * ((q.den : ℤ) : ℚ) := by
    have h' := Rat.num_div_den q
    rw [div_eq_iff (by push_cast at hden0 ⊢; exact hden0)] at h'
    push_cast
    exact h'
  have main : ∀ g : ℤ, 2 * |g * (q.den : ℤ) - q.num| ≤ (q.den : ℤ) →
      |(g : ℚ) - q| ≤ 1 / 2 := by
    intro g hg
    have habs : (g : ℚ) - q = ((g * (q.den : ℤ) - q.num : ℤ) : ℚ) / (((q.den : ℤ)) : ℚ) := by
      rw [eq_div_iff hden0]
      push_cast
      push_cast at hq
      linear_combination hq
    rw [habs, abs_div, abs_of_pos hdq, div_le_div_iff₀ hdq (by norm_num : (0:ℚ) < 2)]
    rw [← Int.cast_abs]
    push_cast
    have : (2 : ℚ) * |(g * (q.den : ℤ) - q.num : ℤ)| ≤ ((q.den : ℤ) : ℚ) := by
      exact_mod_cast hg
    push_cast at this
    linarith
  simp only [pyRound]
  split_ifs with h1 h2 h3
  · refine main _ ?_
    have : q.num.fdiv (q.den : ℤ) * (q.den : ℤ) - q.num = -(q.num.fmod (q.den : ℤ)) := by
      linarith
    rw [this, abs_neg, abs_of_nonneg hr0]
    omega
  · refine main _ ?_
    have : (q.num.fdiv (q.den : ℤ) + 1) * (q.den : ℤ) - q.num
        = (q.den : ℤ) - q.num.fmod (q.den : ℤ) := by ring_nf; linarith
    rw [this, abs_of_nonneg (by omega)]
    omega
  · refine main _ ?_
    have : q.num.fdiv (q.den : ℤ) * (q.den : ℤ) - q.num = -(q.num.fmod (q.den : ℤ)) := by
      linarith
    rw [this, abs_neg, abs_of_nonneg hr0]
    omega
  · refine main _ ?_
    have : (q.num.fdiv (q.den : ℤ) + 1) * (q.den : ℤ) - q.num
        = (q.den : ℤ) - q.num.fmod (q.den : ℤ) := by ring_nf; linarith
    rw [this, abs_of_nonneg (by omega)]
    omega

/-! ### Claims C2, C3, C4 — the formatter -/

/-- C2: `format_watts` rounds its input to the nearest whole watt before
comparing against the 1000 threshold — `format_watts 999.4 = "999 W"`,
`format_watts 999.6 = "1.0 W"`, `format_watts (-1500) = "-1.5 W"` — and the
kW-path division operates on the rounded integer (the argument of `fmtKW` is
`pyRound w`), not on the raw input. -/
theorem c2_round_before_threshold :
    format_watts (999.4 : ℚ) = "999 W"
    ∧ format_watts (999.6 : ℚ) = "1.0 W"
    ∧ format_watts (-1500 : ℚ) = "-1.5 W"
    ∧ ∀ w : ℚ, format_watts w =
        if (pyRound w).natAbs < 1000 then intToStr (pyRound w) ++ " W"
        else fmtKW (pyRound w) := by
  refine ⟨?_, ?_, ?_, fun w => rfl⟩
  · have h : (999.4 : ℚ) = mkRat 9994 10 := by rw [Rat.mkRat_eq_div]; norm_num
    rw [h]; decide
  · have h : (999.6 : ℚ) = mkRat 9996 10 := by rw [Rat.mkRat_eq_div]; norm_num
    rw [h]; decide
  · decide

/-- C3: for `|round w| < 1000`, `format_watts w` is the decimal rendering of
`round w` followed by `" W"`: a leading `-` exactly when `round w < 0`, the
digit characters reading back to `|round w|`, and no decimal point anywhere
in the output. -/
theorem c3_small_values_integer_rendering (w : ℚ)
    (h : (pyRound w).natAbs < 1000) :
    format_watts w = intToStr (pyRound w) ++ " W"
    ∧ intToStr (pyRound w)
        = (if pyRound w < 0 then "-" else "") ++ natToStr (pyRound w).natAbs
    ∧ digitsToNat (natToDigits (pyRound w).natAbs) = (pyRound w).natAbs
    ∧ '.' ∉ (format_watts w).data := by
  have h1 : format_watts w = intToStr (pyRound w) ++ " W" := by
    simp only [format_watts]
    rw [if_pos h]
  refine ⟨h1, rfl, digitsToNat_natToDigits _, ?_⟩
  rw [h1]
  intro hmem
  simp only [String.data_append, intToStr, natToStr, List.mem_append] at hmem
  rcases hmem with (hmem | hmem) | hmem
  · split_ifs at hmem <;> simp_all
  · exact dot_not_mem_natToDigits _ hmem
  · simp_all

theorem c3_small_values_integer_rendering_witness :
    (pyRound (-42 : ℚ)).natAbs < 1000
    ∧ (format_watts (-42 : ℚ) = intToStr (pyRound (-42 : ℚ)) ++ " W"
       ∧ intToStr (pyRound (-42 : ℚ))
           = (if pyRound (-42 : ℚ) < 0 then "-" else "")
             ++ natToStr (pyRound (-42 : ℚ)).natAbs
       ∧ digitsToNat (natToDigits (pyRound (-42 : ℚ)).natAbs)
           = (pyRound (-42 : ℚ)).natAbs
       ∧ '.' ∉ (format_watts (-42 : ℚ)).data) :=
  ⟨by decide, c3_small_values_integer_rendering (-42) (by decide)⟩

/-- C4: for `|round w| ≥ 1000`, `format_watts w` ends in `" W"`, has exactly
one decimal point with exactly one digit after it, and the shown tenths count
is `round w / 1000` rounded to one decimal place (a nearest-tenth value,
within `1/20` of `round w / 1000`). -/
theorem c4_kw_rendering (w : ℚ) (h : 1000 ≤ (pyRound w).natAbs) :
    (∃ pre : String, format_watts w = pre ++ " W")
    ∧ format_watts w
        = (if tenths (pyRound w) < 0 then "-" else "")
          ++ natToStr ((tenths (pyRound w)).natAbs / 10) ++ "."
          ++ natToStr ((tenths (pyRound w)).natAbs % 10) ++ " W"
    ∧ (natToStr ((tenths (pyRound w)).natAbs % 10)).length = 1
    ∧ (∀ c ∈ (natToStr ((tenths (pyRound w)).natAbs % 10)).data, c.isDigit = true)
    ∧ (format_watts w).data.count '.' = 1
    ∧ |(tenths (pyRound w) : ℚ) / 10 - (pyRound w : ℚ) / 1000| ≤ 1 / 20 := by
  have h1 : format_watts w = fmtKW (pyRound w) := by
    simp only [format_watts]
    rw [if_neg (by omega)]
  have hmod : (tenths (pyRound w)).natAbs % 10 < 10 := Nat.mod_lt _ (by omega)
  refine ⟨?_, ?_, ?_, ?_, ?_, ?_⟩
  · exact ⟨_, h1⟩
  · rw [h1]; rfl
  · show (natToDigits _).length = 1
    exact length_natToDigits_of_lt hmod
  · intro c hc
    exact natToDigits_isDigit hc
  · rw [h1]
    show ((if tenths (pyRound w) < 0 then "-" else "")
      ++ natToStr ((tenths (pyRound w)).natAbs / 10) ++ "."
      ++ natToStr ((tenths (pyRound w)).natAbs % 10) ++ " W").data.count '.' = 1
    simp only [String.data_append, List.count_append]
    have hs : ((if tenths (pyRound w) < 0 then "-" else "") : String).data.count '.' = 0 := by
      split_ifs <;> decide
    have hd1 : (natToStr ((tenths (pyRound w)).natAbs / 10)).data.count '.' = 0 :=
      List.count_eq_zero.mpr (dot_not_mem_natToDigits _)
    have hd2 : (natToStr ((tenths (pyRound w)).natAbs % 10)).data.count '.' = 0 :=
      List.count_eq_zero.mpr (dot_not_mem_natToDigits _)
    rw [hs, hd1, hd2]
    decide
  · have key : |(tenths (pyRound w) : ℚ) - (pyRound w : ℚ) / 100| ≤ 1 / 2 := by
      have h' := pyRound_sub_le_half (mkRat (pyRound w) 100)
      rw [show pyRound (mkRat (pyRound w) 100) = tenths (pyRound w) from rfl,
        Rat.mkRat_eq_div] at h'
      push_cast at h'
      exact h'
    have heq : (tenths (pyRound w) : ℚ) / 10 - (pyRound w : ℚ) / 1000
        = ((tenths (pyRound w) : ℚ) - (pyRound w : ℚ) / 100) / 10 := by ring
    rw [heq, abs_div]
    have h10 : |(10 : ℚ)| = 10 := by norm_num
    rw [h10]
    linarith [key]

theorem c4_kw_rendering_witness :
    1000 ≤ (pyRound (12345 : ℚ)).natAbs
    ∧ ((∃ pre : String, format_watts (12345 : ℚ) = pre ++ " W")
       ∧ format_watts (12345 : ℚ)
           = (if tenths (pyRound (12345 : ℚ)) < 0 then "-" else "")
             ++ natToStr ((tenths (pyRound (12345 : ℚ))).natAbs / 10) ++ "."
             ++ natToStr ((tenths (pyRound (12345 : ℚ))).natAbs % 10) ++ " W"
       ∧ (natToStr ((tenths (pyRound (12345 : ℚ))).natAbs % 10)).length = 1
       ∧ (∀ c ∈ (natToStr ((tenths (pyRound (12345 : ℚ))).natAbs % 10)).data,
            c.isDigit = true)
       ∧ (format_watts (12345 : ℚ)).data.count '.' = 1
       ∧ |(tenths (pyRound (12345 : ℚ)) : ℚ) / 10 - (pyRound (12345 : ℚ) : ℚ) / 1000|
           ≤ 1 / 20) :=
  ⟨by decide, c4_kw_rendering 12345 (by decide)⟩

/-! ### Claims C1, C9 — telemetry extraction -/

theorem except_bind_ok {ε α β : Type} (a : α) (f : α → Except ε β) :
    (Except.ok a >>= f) = f a := rfl

theorem except_bind_error {ε α β : Type} (e : ε) (f : α → Except ε β) :
    ((Except.error e : Except ε α) >>= f) = Except.error e := rfl

theorem except_map_ok {ε α β : Type} (f : α → β) (a : α) :
    (f <$> (Except.ok a : Except ε α)) = Except.ok (f a) := rfl

theorem except_map_error {ε α β : Type} (f : α → β) (e : ε) :
    (f <$> (Except.error e : Except ε α)) = Except.error e := rfl

theorem scanProduction_ok :
    ∀ {l : List DeviceEntry} {p : ℚ},
      scanProduction l = .ok p → p = firstInvertersWNow l := by
  intro l
  induction l with
  | nil =>
    intro p h
    simp only [scanProduction, Except.ok.injEq] at h
    simp [firstInvertersWNow, ← h]
  | cons d rest ih =>
    intro p h
    match hd : d.type with
    | none => simp [scanProduction, getKey, hd, except_bind_error] at h
    | some t =>
      simp only [scanProduction, getKey, hd, except_bind_ok] at h
      by_cases ht : t = "inverters"
      · subst ht
        rw [if_pos rfl] at h
        match hw : d.wNow with
        | none => simp [getKey, hw] at h
        | some v =>
          simp only [getKey, hw, Except.ok.injEq] at h
          simp [firstInvertersWNow, List.find?, hd, hw, ← h]
      · rw [if_neg ht] at h
        rw [ih h]
        simp [firstInvertersWNow, List.find?, hd, ht]

theorem scanConsumption_ok :
    ∀ {l : List DeviceEntry} {c : ℚ},
      scanConsumption l = .ok c → c = firstEimWNow l := by
  intro l
  induction l with
  | nil =>
    intro c h
    simp only [scanConsumption, Except.ok.injEq] at h
    simp [firstEimWNow, ← h]
  | cons d rest ih =>
    intro c h
    match hd : d.type with
    | none => simp [scanConsumption, getKey, hd, except_bind_error] at h
    | some t =>
      simp only [scanConsumption, getKey, hd, except_bind_ok] at h
      by_cases ht : t = "eim"
      · subst ht
        rw [if_pos rfl] at h
        match hm : d.measurementType with
        | none => simp [getKey, hm, except_bind_error] at h
        | some m =>
          simp only [getKey, hm, except_bind_ok] at h
          by_cases hq : m = "net-consumption" ∨ m = "total-consumption"
          · rw [if_pos hq] at h
            match hw : d.wNow with
            | none => simp [getKey, hw] at h
            | some v =>
              simp only [getKey, hw, Except.ok.injEq] at h
              have hpred : (d.type = some "eim"
                  ∧ (d.measurementType = some "net-consumption"
                     ∨ d.measurementType = some "total-consumption")) := by
                refine ⟨hd, ?_⟩
                rcases hq with hq | hq <;> [left; right] <;> rw [hm, hq]
              simp [firstEimWNow, List.find?, hpred, hw, ← h]
          · rw [if_neg hq] at h
            rw [ih h]
            have hpred : ¬ (d.type = some "eim"
                ∧ (d.measurementType = some "net-consumption"
                   ∨ d.measurementType = some "total-consumption")) := by
              rintro ⟨-, hor⟩
              rcases hor with hor | hor <;> rw [hm] at hor <;>
                simp only [Option.some.injEq] at hor <;> simp [hor] at hq
            simp [firstEimWNow, List.find?, hpred]
      · rw [if_neg ht] at h
        rw [ih h]
        have hpred : ¬ (d.type = some "eim"
            ∧ (d.measurementType = some "net-consumption"
               ∨ d.measurementType = some "total-consumption")) := by
          rintro ⟨hty, -⟩
          rw [hd] at hty
          simp only [Option.some.injEq] at hty
          exact ht hty
        simp [firstEimWNow, List.find?, hpred]

/-- C1: whenever the fetcher succeeds, production is the `wNow` of the first
`production` entry of type `"inverters"` (0 when there is none, later
qualifying entries ignored), and consumption is the `wNow` of the first
`consumption` entry of type `"eim"` with measurementType `net-consumption` or
`total-consumption` (0 when there is none). -/
theorem c1_first_match_extraction (doc : ProductionDoc) (p c : ℚ)
    (h : get_solar_stats doc = .ok (p, c)) :
    p = firstInvertersWNow doc.production ∧ c = firstEimWNow doc.consumption := by
  match hp : scanProduction doc.production with
  | .error e => simp [get_solar_stats, hp, except_bind_error] at h
  | .ok p' =>
    match hc : scanConsumption doc.consumption with
    | .error e => simp [get_solar_stats, hp, hc, except_bind_ok, except_map_error] at h
    | .ok c' =>
      simp only [get_solar_stats, hp, hc, except_bind_ok, except_map_ok,
        Except.ok.injEq, Prod.mk.injEq] at h
      rcases h with ⟨rfl, rfl⟩
      exact ⟨scanProduction_ok hp, scanConsumption_ok hc⟩

theorem c1_first_match_extraction_witness :
    get_solar_stats
        ⟨[⟨some "inverters", none, some 7⟩, ⟨some "inverters", none, some 99⟩],
         [⟨some "eim", some "other", some 55⟩]⟩ = .ok (7, 0)
    ∧ (7 = firstInvertersWNow
          [⟨some "inverters", none, some 7⟩, ⟨some "inverters", none, some 99⟩]
       ∧ 0 = firstEimWNow [⟨some "eim", some "other", some 55⟩]) :=
  ⟨by decide,
   c1_first_match_extraction
     ⟨[⟨some "inverters", none, some 7⟩, ⟨some "inverters", none, some 99⟩],
      [⟨some "eim", some "other", some 55⟩]⟩ 7 0 (by decide)⟩

theorem scanProduction_skip {e : DeviceEntry} (h : prodSkips e)
    (l : List DeviceEntry) : scanProduction (e :: l) = scanProduction l := by
  obtain ⟨t, ht, hne⟩ := h
  simp [scanProduction, getKey, ht, hne, except_bind_ok]

theorem scanProduction_skips {pre : List DeviceEntry}
    (h : ∀ e ∈ pre, prodSkips e) (l : List DeviceEntry) :
    scanProduction (pre ++ l) = scanProduction l := by
  induction pre with
  | nil => rfl
  | cons e pre ih =>
    rw [List.cons_append, scanProduction_skip (h e (List.mem_cons_self e _)) (pre ++ l)]
    exact ih (fun e' he' => h e' (List.mem_cons_of_mem _ he'))

theorem scanConsumption_skip {e : DeviceEntry} (h : consSkips e)
    (l : List DeviceEntry) : scanConsumption (e :: l) = scanConsumption l := by
  rcases h with ⟨t, ht, hne⟩ | ⟨ht, m, hm, hm1, hm2⟩
  · simp [scanConsumption, getKey, ht, hne, except_bind_ok]
  · simp [scanConsumption, getKey, ht, hm, hm1, hm2, except_bind_ok]

theorem scanConsumption_skips {pre : List DeviceEntry}
    (h : ∀ e ∈ pre, consSkips e) (l : List DeviceEntry) :
    scanConsumption (pre ++ l) = scanConsumption l := by
  induction pre with
  | nil => rfl
  | cons e pre ih =>
    rw [List.cons_append, scanConsumption_skip (h e (List.mem_cons_self e _)) (pre ++ l)]
    exact ih (fun e' he' => h e' (List.mem_cons_of_mem _ he'))

/-- C9: telemetry extraction is partial.  Whenever the scan reaches an entry
with a missing key it raises that `KeyError` instead of returning a Reading:
(1) a `production` entry without a `type` key, reached after non-matching
entries, makes the whole fetch fail with `KeyError('type')` whatever the
`consumption` list holds; (2) a `consumption` entry without a `type` key,
reached after non-matching entries, fails the same way once the production
scan succeeded; (3) a `consumption` entry of type `"eim"` without a
`measurementType` key, reached before any qualifying match, fails with
`KeyError('measurementType')`.  Contrapositively, a successful return forces
every scanned entry to carry a `type` key and every scanned `"eim"`
consumption entry to carry a `measurementType` key. -/
theorem c9_extraction_key_errors (pre rest other : List DeviceEntry)
    (d : DeviceEntry) :
    ((∀ e ∈ pre, prodSkips e) → d.type = none →
      ∀ cl, get_solar_stats ⟨pre ++ d :: rest, cl⟩ = .error "type")
    ∧ ((∀ e ∈ pre, consSkips e) → d.type = none →
      ∀ pw, scanProduction other = .ok pw →
        get_solar_stats ⟨other, pre ++ d :: rest⟩ = .error "type")
    ∧ ((∀ e ∈ pre, consSkips e) → d.type = some "eim" → d.measurementType = none →
      ∀ pw, scanProduction other = .ok pw →
        get_solar_stats ⟨other, pre ++ d :: rest⟩ = .error "measurementType") := by
  refine ⟨?_, ?_, ?_⟩
  · intro hpre hd cl
    have hscan : scanProduction (pre ++ d :: rest) = .error "type" := by
      rw [scanProduction_skips hpre]
      simp [scanProduction, getKey, hd, except_bind_error]
    simp [get_solar_stats, hscan, except_bind_error]
  · intro hpre hd pw hok
    have hscan : scanConsumption (pre ++ d :: rest) = .error "type" := by
      rw [scanConsumption_skips hpre]
      simp [scanConsumption, getKey, hd, except_bind_error]
    simp [get_solar_stats, hok, hscan, except_bind_ok, except_map_error]
  · intro hpre hd hm pw hok
    have hscan : scanConsumption (pre ++ d :: rest) = .error "measurementType" := by
      rw [scanConsumption_skips hpre]
      simp [scanConsumption, getKey, hd, hm, except_bind_ok, except_bind_error]
    simp [get_solar_stats, hok, hscan, except_bind_ok, except_map_error]

theorem c9_extraction_key_errors_witness :
    get_solar_stats ⟨[⟨none, none, some 5⟩], [⟨some "eim", some "net-consumption", some 1⟩]⟩
        = .error "type"
    ∧ get_solar_stats ⟨[], [⟨some "eim", none, some 5⟩]⟩ = .error "measurementType" :=
  ⟨(c9_extraction_key_errors [] [] [] ⟨none, none, some 5⟩).1 (by simp) rfl
      [⟨some "eim", some "net-consumption", some 1⟩],
   (c9_extraction_key_errors [] [] [] ⟨some "eim", none, some 5⟩).2.2 (by simp) rfl rfl
      0 rfl⟩

/-! ### Claims C5, C6, C7, C10 — session establishment -/

theorem finishSession_creds (env : Env) (c : Credentials) (tr : List Event) :
    (finishSession env c tr).creds = c := by
  simp only [finishSession]
  split <;> rfl

theorem finishSession_trace (env : Env) (c : Credentials) (tr : List Event) :
    (finishSession env c tr).trace
      = tr ++ (if env.cert_exists then [] else [Event.trustGateway c.gateway_host])
        ++ [Event.login c.gateway_host (c.gateway_token.getD "")] := by
  simp only [finishSession]
  split <;> rfl

theorem checkEventsOf_events {c : Credentials} {ev : Event}
    (h : ev ∈ checkEventsOf c) : ∃ t s, ev = Event.checkToken t s := by
  cases htok : c.gateway_token with
  | none => simp [checkEventsOf, htok] at h
  | some t =>
    simp only [checkEventsOf, htok] at h
    by_cases he : t.isEmpty = true
    · rw [if_pos he] at h
      simp at h
    · rw [if_neg he] at h
      simp only [List.mem_singleton] at h
      exact ⟨t, c.gateway_serial_number, h⟩

theorem cachedTokenUsable_token {env : Env} {c : Credentials}
    (h : cachedTokenUsable env c = true) :
    ∃ t, c.gateway_token = some t ∧ t.isEmpty = false
      ∧ env.check_token_valid t c.gateway_serial_number = true := by
  cases htok : c.gateway_token with
  | none => simp [cachedTokenUsable, htok] at h
  | some t =>
    simp only [cachedTokenUsable, htok, Bool.and_eq_true, Bool.not_eq_true'] at h
    exact ⟨t, rfl, h.1, h.2⟩

theorem session_usable_token (env : Env) (c : Credentials)
    (h : cachedTokenUsable env c = true) :
    get_secure_gateway_session env c = finishSession env c (checkEventsOf c) := by
  obtain ⟨t, htok, he, -⟩ := cachedTokenUsable_token h
  simp only [get_secure_gateway_session, h, if_true]
  rw [if_pos]
  simp [truthy, htok, he]

theorem session_invalid_no_creds (env : Env) (c : Credentials)
    (hu : cachedTokenUsable env c = false)
    (hb : (truthy c.enphase_username && truthy c.enphase_password) = false) :
    get_secure_gateway_session env c
      = ⟨.error badTokenMsg, { c with gateway_token := none }, checkEventsOf c⟩ := by
  simp only [get_secure_gateway_session, hu, Bool.false_eq_true, if_false]
  rw [if_neg (by simp [truthy]), if_neg (by simp only [hb]; exact Bool.false_ne_true)]

theorem session_auth_rejected (env : Env) (c : Credentials)
    (hu : cachedTokenUsable env c = false)
    (hb : (truthy c.enphase_username && truthy c.enphase_password) = true)
    (ha : env.authenticate_ok (c.enphase_username.getD "") (c.enphase_password.getD "")
        = false) :
    get_secure_gateway_session env c
      = ⟨.error entrezMsg, { c with gateway_token := none },
         checkEventsOf c
           ++ [.authenticate (c.enphase_username.getD "") (c.enphase_password.getD "")]⟩ := by
  simp only [get_secure_gateway_session, hu, Bool.false_eq_true, if_false]
  rw [if_neg (by simp [truthy]), if_pos (by simp only [hb]), if_neg]
  simp only [ha]
  exact Bool.false_ne_true

theorem session_fresh_token (env : Env) (c : Credentials)
    (hu : cachedTokenUsable env c = false)
    (hb : (truthy c.enphase_username && truthy c.enphase_password) = true)
    (ha : env.authenticate_ok (c.enphase_username.getD "") (c.enphase_password.getD "")
        = true) :
    get_secure_gateway_session env c
      = finishSession env
          { c with gateway_token := some (issuedTokenOf env c) }
          (checkEventsOf c
            ++ [.authenticate (c.enphase_username.getD "") (c.enphase_password.getD ""),
                issueEventOf c,
                .writeConfig { c with gateway_token := some (issuedTokenOf env c) }]) := by
  simp only [get_secure_gateway_session, hu, Bool.false_eq_true, if_false]
  rw [if_neg (by simp [truthy]), if_pos (by simp only [hb]), if_pos (by simp only [ha])]
  rfl

/-- C5: with no usable cached token (absent, empty, or failing the
introspection call) and no username or no password, session establishment
raises the `ValueError` of line 81 and performs no file write at all
(neither `config.json` nor `gateway.cer` is touched). -/
theorem c5_missing_credentials_no_writes (env : Env) (c : Credentials)
    (hu : cachedTokenUsable env c = false)
    (hc : truthy c.enphase_username = false ∨ truthy c.enphase_password = false) :
    (get_secure_gateway_session env c).result = .error badTokenMsg
    ∧ ∀ ev ∈ (get_secure_gateway_session env c).trace, ev.isFileWrite = false := by
  have hb : (truthy c.enphase_username && truthy c.enphase_password) = false := by
    rcases hc with h | h <;> simp [h]
  rw [session_invalid_no_creds env c hu hb]
  refine ⟨rfl, ?_⟩
  intro ev hev
  obtain ⟨t, s, rfl⟩ := checkEventsOf_events hev
  rfl

theorem c5_missing_credentials_no_writes_witness :
    cachedTokenUsable envDeny credsExpired = false
    ∧ truthy credsExpired.enphase_username = false
    ∧ ((get_secure_gateway_session envDeny credsExpired).result = .error badTokenMsg
       ∧ ∀ ev ∈ (get_secure_gateway_session envDeny credsExpired).trace,
           ev.isFileWrite = false) :=
  ⟨by decide, by decide,
   c5_missing_credentials_no_writes envDeny credsExpired (by decide)
     (Or.inl (by decide))⟩

/-- C6: with a cached token that passes validation, session establishment
makes no cloud authentication call (no `authenticate`, no token issuance),
does not rewrite the credential file, and leaves the record unchanged. -/
theorem c6_valid_token_no_cloud_calls (env : Env) (c : Credentials)
    (h : cachedTokenUsable env c = true) :
    (get_secure_gateway_session env c).creds = c
    ∧ ∀ ev ∈ (get_secure_gateway_session env c).trace,
        ev.isCloudCall = false ∧ ev.isCredWrite = false := by
  rw [session_usable_token env c h]
  refine ⟨finishSession_creds env c _, ?_⟩
  intro ev hev
  rw [finishSession_trace] at hev
  simp only [List.mem_append] at hev
  rcases hev with (hev | hev) | hev
  · obtain ⟨t, s, rfl⟩ := checkEventsOf_events hev
    exact ⟨rfl, rfl⟩
  · by_cases hce : env.cert_exists = true
    · rw [if_pos hce] at hev
      simp at hev
    · rw [if_neg hce] at hev
      simp only [List.mem_singleton] at hev
      subst hev
      exact ⟨rfl, rfl⟩
  · simp only [List.mem_singleton] at hev
    subst hev
    exact ⟨rfl, rfl⟩

theorem c6_valid_token_no_cloud_calls_witness :
    cachedTokenUsable envAllow credsValid = true
    ∧ ((get_secure_gateway_session envAllow credsValid).creds = credsValid
       ∧ ∀ ev ∈ (get_secure_gateway_session envAllow credsValid).trace,
           ev.isCloudCall = false ∧ ev.isCredWrite = false) :=
  ⟨by decide, c6_valid_token_no_cloud_calls envAllow credsValid (by decide)⟩

/-- C10: when a cached token is present (non-empty) but fails validation and
no username/password is available, the in-memory record is mutated in place —
its `gateway_token` is cleared before the error of line 81 is raised — so on
this failure path the final record differs from the caller's even though no
file was written. -/
theorem c10_token_cleared_in_memory (env : Env) (c : Credentials) (t : String)
    (h1 : c.gateway_token = some t) (h2 : t.isEmpty = false)
    (h3 : env.check_token_valid t c.gateway_serial_number = false)
    (h4 : truthy c.enphase_username = false ∨ truthy c.enphase_password = false) :
    (get_secure_gateway_session env c).result = .error badTokenMsg
    ∧ (get_secure_gateway_session env c).creds = { c with gateway_token := none }
    ∧ (get_secure_gateway_session env c).creds ≠ c
    ∧ ∀ ev ∈ (get_secure_gateway_session env c).trace, ev.isFileWrite = false := by
  have hu : cachedTokenUsable env c = false := by
    simp [cachedTokenUsable, h1, h2, h3]
  have hb : (truthy c.enphase_username && truthy c.enphase_password) = false := by
    rcases h4 with h | h <;> simp [h]
  rw [session_invalid_no_creds env c hu hb]
  refine ⟨rfl, rfl, ?_, ?_⟩
  · intro heq
    have := congrArg Credentials.gateway_token heq
    simp only [h1] at this
    exact Option.noConfusion this
  · intro ev hev
    obtain ⟨t', s, rfl⟩ := checkEventsOf_events hev
    rfl

theorem c10_token_cleared_in_memory_witness :
    credsExpired.gateway_token = some "expired"
    ∧ ("expired").isEmpty = false
    ∧ envDeny.check_token_valid "expired" credsExpired.gateway_serial_number = false
    ∧ truthy credsExpired.enphase_username = false
    ∧ ((get_secure_gateway_session envDeny credsExpired).result = .error badTokenMsg
       ∧ (get_secure_gateway_session envDeny credsExpired).creds
           = { credsExpired with gateway_token := none }
       ∧ (get_secure_gateway_session envDeny credsExpired).creds ≠ credsExpired
       ∧ ∀ ev ∈ (get_secure_gateway_session envDeny credsExpired).trace,
           ev.isFileWrite = false) :=
  ⟨by decide, by decide, by decide, by decide,
   c10_token_cleared_in_memory envDeny credsExpired "expired" (by decide) (by decide)
     (by decide) (Or.inl (by decide))⟩

theorem issueEventOf_isCredWrite (c : Credentials) :
    (issueEventOf c).isCredWrite = false := by
  unfold issueEventOf
  split <;> rfl

theorem credWrite_authenticate (u p : String) :
    (Event.authenticate u p).isCredWrite = false := rfl

theorem credWrite_writeConfig (r : Credentials) :
    (Event.writeConfig r).isCredWrite = true := rfl

theorem credWrite_login (h : Option String) (t : String) :
    (Event.login h t).isCredWrite = false := rfl

theorem credWrite_trustGateway (h : Option String) :
    (Event.trustGateway h).isCredWrite = false := rfl

theorem filter_credWrite_checkEventsOf (c : Credentials) :
    (checkEventsOf c).filter Event.isCredWrite = [] :=
  List.filter_eq_nil_iff.mpr fun ev hev => by
    obtain ⟨t, s, rfl⟩ := checkEventsOf_events hev
    simp [Event.isCredWrite]

/-- C7: whenever session establishment issues a new token, `config.json` is
rewritten exactly once, with the full final credential record (all non-token
fields equal to the caller's, the token field holding the issued token);
and after any successful establishment the final record's `gateway_token`
is present. -/
theorem c7_full_record_single_write (env : Env) (c : Credentials) :
    ((∃ ev ∈ (get_secure_gateway_session env c).trace, ev.isIssue = true) →
      ((get_secure_gateway_session env c).trace.filter Event.isCredWrite
          = [Event.writeConfig (get_secure_gateway_session env c).creds]
        ∧ (get_secure_gateway_session env c).creds.gateway_host = c.gateway_host
        ∧ (get_secure_gateway_session env c).creds.gateway_serial_number
            = c.gateway_serial_number
        ∧ (get_secure_gateway_session env c).creds.enphase_username = c.enphase_username
        ∧ (get_secure_gateway_session env c).creds.enphase_password = c.enphase_password
        ∧ ∃ t, (get_secure_gateway_session env c).creds.gateway_token = some t))
    ∧ (∀ s, (get_secure_gateway_session env c).result = .ok s →
        (get_secure_gateway_session env c).creds.gateway_token.isSome = true) := by
  cases hu : cachedTokenUsable env c with
  | true =>
    rw [session_usable_token env c hu]
    obtain ⟨t, htok, -, -⟩ := cachedTokenUsable_token hu
    constructor
    · rintro ⟨ev, hev, hiss⟩
      exfalso
      rw [finishSession_trace] at hev
      simp only [List.mem_append] at hev
      rcases hev with (hev | hev) | hev
      · obtain ⟨t', s, rfl⟩ := checkEventsOf_events hev
        simp [Event.isIssue] at hiss
      · by_cases hce : env.cert_exists = true
        · rw [if_pos hce] at hev
          simp at hev
        · rw [if_neg hce] at hev
          simp only [List.mem_singleton] at hev
          subst hev
          simp [Event.isIssue] at hiss
      · simp only [List.mem_singleton] at hev
        subst hev
        simp [Event.isIssue] at hiss
    · intro s hs
      rw [finishSession_creds]
      simp [htok]
  | false =>
    cases hb : (truthy c.enphase_username && truthy c.enphase_password) with
    | false =>
      rw [session_invalid_no_creds env c hu hb]
      constructor
      · rintro ⟨ev, hev, hiss⟩
        exfalso
        obtain ⟨t', s, rfl⟩ := checkEventsOf_events hev
        simp [Event.isIssue] at hiss
      · intro s hs
        exact absurd hs (by simp)
    | true =>
      cases ha : env.authenticate_ok (c.enphase_username.getD "")
          (c.enphase_password.getD "") with
      | false =>
        rw [session_auth_rejected env c hu hb ha]
        constructor
        · rintro ⟨ev, hev, hiss⟩
          exfalso
          simp only [List.mem_append] at hev
          rcases hev with hev | hev
          · obtain ⟨t', s, rfl⟩ := checkEventsOf_events hev
            simp [Event.isIssue] at hiss
          · simp only [List.mem_singleton] at hev
            subst hev
            simp [Event.isIssue] at hiss
        · intro s hs
          exact absurd hs (by simp)
      | true =>
        rw [session_fresh_token env c hu hb ha]
        simp only [finishSession_creds]
        constructor
        · intro hex
          refine ⟨?_, by simp⟩
          rw [finishSession_trace]
          by_cases hce : env.cert_exists = true <;>
            simp [hce, List.filter_append, filter_credWrite_checkEventsOf,
              List.filter, issueEventOf_isCredWrite, credWrite_authenticate,
              credWrite_writeConfig, credWrite_login, credWrite_trustGateway]
        · intro s hs
          rfl

theorem c7_full_record_single_write_witness :
    (∃ ev ∈ (get_secure_gateway_session envAllow credsFresh).trace, ev.isIssue = true)
    ∧ ((get_secure_gateway_session envAllow credsFresh).trace.filter Event.isCredWrite
          = [Event.writeConfig (get_secure_gateway_session envAllow credsFresh).creds]
       ∧ (get_secure_gateway_session envAllow credsFresh).creds.gateway_host
           = credsFresh.gateway_host
       ∧ (get_secure_gateway_session envAllow credsFresh).creds.gateway_serial_number
           = credsFresh.gateway_serial_number
       ∧ (get_secure_gateway_session envAllow credsFresh).creds.enphase_username
           = credsFresh.enphase_username
       ∧ (get_secure_gateway_session envAllow credsFresh).creds.enphase_password
           = credsFresh.enphase_password
       ∧ ∃ t, (get_secure_gateway_session envAllow credsFresh).creds.gateway_token
           = some t)
    ∧ (get_secure_gateway_session envAllow credsFresh).result
        = .ok ⟨none, "tok-sn"⟩
    ∧ (get_secure_gateway_session envAllow credsFresh).creds.gateway_token.isSome
        = true :=
  ⟨by decide,
   (c7_full_record_single_write envAllow credsFresh).1 (by decide),
   by decide,
   (c7_full_record_single_write envAllow credsFresh).2 ⟨none, "tok-sn"⟩ (by decide)⟩

/-! ### Claim C8 — the display loop -/

theorem displayLoop_eq (env : LoopEnv) :
    ∀ fuel i, displayLoop env fuel i
      = ((List.range' i fuel).takeWhile env.isOnline).map (loopBody env) := by
  intro fuel
  induction fuel with
  | zero => intro i; rfl
  | succ fuel ih =>
    intro i
    rw [List.range'_succ]
    simp only [List.takeWhile_cons, displayLoop]
    cases ho : env.isOnline i with
    | false => simp [ho]
    | true => simp [ho, ih (i + 1)]

/-- C8: the iterations of the display loop are exactly the longest prefix of
online checks — the loop body runs once per `true` check, exits at the first
`false` check and is never re-entered — and each iteration performs, in
order: fetch, compute available = production − consumption, clear the layer,
draw the formatted available value in the large font centred at
`(w/2, h/3)`, draw the formatted production value in parentheses in the
medium font centred at `(w/2, 2h/3)`, then sleep 5000 ms. -/
theorem c8_display_loop (env : LoopEnv) (fuel : ℕ) :
    displayLoop env fuel 0
      = ((List.range fuel).takeWhile env.isOnline).map (loopBody env)
    ∧ ∀ i, loopBody env i
        = [DispEvent.fetch (env.production i) (env.consumption i),
           DispEvent.clear,
           DispEvent.selectFont "Large.yfm",
           DispEvent.drawText (env.width / 2) (env.height / 3) "CENTER"
             (format_watts (env.production i - env.consumption i)),
           DispEvent.selectFont "Medium.yfm",
           DispEvent.drawText (env.width / 2) (env.height * 2 / 3) "CENTER"
             ("(" ++ format_watts (env.production i) ++ ")"),
           DispEvent.sleep 5000] := by
  refine ⟨?_, fun i => rfl⟩
  rw [List.range_eq_range']
  exact displayLoop_eq env fuel 0
